import Mathlib

/-!
Verification development for the Terra-data tile-mosaic scripts.

Each Python function that a claim refers to is embedded as a computable
Lean definition.  Images are modelled as total functions from pixel
coordinates to RGB colors; `Image.paste` becomes `paste`, which
overwrites a `tile_size × tile_size` region.  File-system and network
effects are passed in as explicit parameters (does a file exist, does
the HTTP request return 200, does the encoder succeed), and functions
that touch the outside world additionally return the ordered list of
observable steps they performed.
-/

set_option maxRecDepth 40000

namespace TerraData

/-! ## Image model (PIL `Image` as used by the stitchers) -/

/-- RGB color triple, as used by PIL `Image.new("RGB", ...)`. -/
abbrev Color : Type := ℕ × ℕ × ℕ

/-- An image is modelled as a total function from pixel coordinates to
colors.  The scripts only ever paste whole tiles at non-negative
offsets inside a canvas that is large enough, so the unbounded domain
is harmless for the placement properties proved below. -/
abbrev Img : Type := ℕ → ℕ → Color

/-- `self.tile_size = 256  # Standard WMTS tile size` from
`complete-world-map-generator.py`. -/
def tile_size : ℕ := 256

/-- `canvas.paste(tile, (px, py))`: overwrite the square region of side
`tile_size` whose top-left corner is `(px, py)` with the pixels of
`tile`; every other pixel keeps its previous color. -/
def paste (canvas tile : Img) (px py : ℕ) : Img :=
  fun u v =>
    if px ≤ u ∧ u < px + tile_size ∧ py ≤ v ∧ v < py + tile_size then
      tile (u - px) (v - py)
    else
      canvas u v

/-- Generic paste loop: paste each element of `l` onto `init`, the
image of element `a` going to slot `pos a` (slots are in tile units;
pixel offset is the slot times `tile_size`).  Both stitchers below are
instances of this loop. -/
def pasteAll {α : Type} (img : α → Img) (pos : α → ℕ × ℕ)
    (init : Img) (l : List α) : Img :=
  l.foldl (fun c a => paste c (img a) ((pos a).1 * tile_size) ((pos a).2 * tile_size)) init

/-! ## Mosaic compositors -/

/-- `TerraWorldMapGenerator.stitch_world_map` (tile-placement part),
from `complete-world-map-generator.py`: start from a canvas filled with
the dark-blue background `(0, 0, 50)` and paste each successful tile
`(z, x, y, img)` at pixel offset `(x * tile_size, y * tile_size)`.
The title/grid overlay and the optional display-size resize that the
script applies afterwards are deterministic functions of this canvas
and of the tile count, so they are not part of the placement model. -/
def stitch_world_map_canvas (successful_tiles : List (ℕ × ℕ × ℕ × Img)) : Img :=
  successful_tiles.foldl
    (fun world_map t => paste world_map t.2.2.2 (t.2.1 * tile_size) (t.2.2.1 * tile_size))
    (fun _ _ => (0, 0, 50))

/-- `EarthdataImageExporter.stitch_tiles` (placement part), from
`earthdata-image-exporter.py`: tiles are placed by their POSITION `i`
in the input list, at `x = (i % cols) * tile_size`,
`y = (i / cols) * tile_size` with `cols = width / tile_size + 1`,
skipping slots that start outside the `width × height` canvas; the
`(tile_x, tile_y)` coordinates carried by each entry are ignored.
The final LANCZOS resize applied by the script is a deterministic
function of this canvas. -/
def stitch_tiles_canvas (tile_images : List (ℕ × ℕ × Img)) (width height : ℕ) : Img :=
  let cols := width / tile_size + 1
  (tile_images.enum).foldl
    (fun result it =>
      let x := (it.1 % cols) * tile_size
      let y := (it.1 / cols) * tile_size
      if x < width ∧ y < height then paste result it.2.2.2 x y else result)
    (fun _ _ => (0, 0, 50))

/-- `TerraIngestor._compose_frame`, from
`terra25/services/ingestor/ingest_worker.py`: for an empty tile list
return `none`; otherwise compute `min_x = min(tile[0] ...)`,
`min_y = min(tile[1] ...)` over the whole list, start from a black
canvas and paste each tile `(x, y, img)` at pixel offset
`((x - min_x) * tile_size, (y - min_y) * tile_size)`. -/
def compose_frame (tiles : List (ℕ × ℕ × Img)) : Option Img :=
  if tiles.isEmpty then none
  else
    let min_x := ((tiles.map fun t => t.1).min?).getD 0
    let min_y := ((tiles.map fun t => t.2.1).min?).getD 0
    some (tiles.foldl
      (fun frame t => paste frame t.2.2 ((t.1 - min_x) * tile_size) ((t.2.1 - min_y) * tile_size))
      (fun _ _ => (0, 0, 0)))

/-- Concrete all-ones tile used in concrete evaluations. -/
def tileA : Img := fun _ _ => (1, 1, 1)

/-- Concrete all-twos tile used in concrete evaluations. -/
def tileB : Img := fun _ _ => (2, 2, 2)

/-! ## Tile grid planners -/

/-- `TerraWorldMapGenerator.calculate_world_tiles`, from
`complete-world-map-generator.py`: enumerate `(zoom_level, x, y)` for
`x` and `y` ranging over `range(2 ** zoom_level)`. -/
def calculate_world_tiles (zoom_level : ℕ) : List (ℕ × ℕ × ℕ) :=
  (List.range (2 ^ zoom_level)).flatMap fun x =>
    (List.range (2 ^ zoom_level)).map fun y => (zoom_level, x, y)

/-- The nested loop `for x in range(x_min, x_max + 1): for y in
range(y_min, y_max + 1)` as the list of visited `(x, y)` pairs
(empty whenever a range is empty, exactly like Python `range`). -/
def int_grid (x_min x_max y_min y_max : ℤ) : List (ℤ × ℤ) :=
  (List.range (x_max + 1 - x_min).toNat).flatMap fun (i : ℕ) =>
    (List.range (y_max + 1 - y_min).toNat).map fun (j : ℕ) =>
      (x_min + (i : ℤ), y_min + (j : ℤ))

/-- Python `int()` on an exact rational value: truncation toward zero
(this is how the float-to-int conversions in `get_tiles_for_bbox`
behave on the values that arise there). -/
def pyInt (q : ℚ) : ℤ := q.num.tdiv q.den

/-- `EarthdataImageExporter.get_tiles_for_bbox`, from
`earthdata-image-exporter.py`: clamp the four converted corner indices
to `[0, 2 ** zoom_level - 1]` and enumerate the full inclusive
rectangle.  `bbox` is `(min_lon, min_lat, max_lon, max_lat)`; the
script computes `x` from longitude by `(lon + 180) / 360 * max_tile`
and `y` from latitude by `(90 - lat) / 180 * max_tile`.  The Python
floats are modelled as exact rationals.  There is no cap on the number
of returned tiles. -/
def get_tiles_for_bbox (bbox : ℚ × ℚ × ℚ × ℚ) (zoom_level : ℕ) : List (ℤ × ℤ) :=
  let max_tile : ℤ := 2 ^ zoom_level
  let x_min := max 0 (pyInt ((bbox.1 + 180) / 360 * (max_tile : ℚ)))
  let x_max := min (max_tile - 1) (pyInt ((bbox.2.2.1 + 180) / 360 * (max_tile : ℚ)))
  let y_min := max 0 (pyInt ((90 - bbox.2.2.2) / 180 * (max_tile : ℚ)))
  let y_max := min (max_tile - 1) (pyInt ((90 - bbox.2.1) / 180 * (max_tile : ℚ)))
  int_grid x_min x_max y_min y_max

/-- `TerraIngestor._get_tile_coordinates`, from
`terra25/services/ingestor/ingest_worker.py` (here named without the
leading underscore): the function first converts the two bounding-box
corners to tile indices with the slippy-map `deg2num` formula (floating
point trigonometry; the resulting four integer bounds are taken as the
inputs here), then enumerates the inclusive rectangle and returns
`coordinates[:25]`. -/
def get_tile_coordinates (min_x max_x min_y max_y : ℤ) : List (ℤ × ℤ) :=
  (int_grid min_x max_x min_y max_y).take 25

/-! ## Tile fetchers -/

/-- `f"tile_{z}_{x}_{y}.jpg"` from
`TerraWorldMapGenerator.download_tile`. -/
def tile_filename (z x y : ℕ) : String :=
  "tile_" ++ toString z ++ "_" ++ toString x ++ "_" ++ toString y ++ ".jpg"

/-- `TerraWorldMapGenerator.download_tile`, from
`complete-world-map-generator.py`.  Effect parameters: does the tile
file already exist at `tile_path`, and does the HTTP GET return 200.
Result: the returned `(path?, success)` pair, paired with whether a
network request was issued. -/
def download_tile (z x y : ℕ) (tile_exists : Bool) (status_200 : Bool) :
    (Option String × Bool) × Bool :=
  if tile_exists then
    ((some (tile_filename z x y), true), false)
  else if status_200 then
    ((some (tile_filename z x y), true), true)
  else
    ((none, false), true)

/-- `DirectGIBSDownloader.download_single_tile`, from
`direct-gibs-downloader.py`.  The function issues `requests.get(url)`
unconditionally — it never looks at the output path before fetching —
so the `output_exists` parameter does not influence anything.  Result:
the returned boolean, paired with whether a network request was
issued. -/
def download_single_tile (output_exists : Bool) (status_200 : Bool) : Bool × Bool :=
  (status_200, true)

/-- `DirectGIBSDownloader.download_region_grid`, from
`direct-gibs-downloader.py`: walk the inclusive rectangle
`[x_min, x_max] × [y_min, y_max]` and count, per tile, whether
`download_single_tile` reported success.  `outcome x y` is the success
of the fetch for tile `(x, y)`.  Returns `(successful, failed)`. -/
def download_region_grid (outcome : ℤ → ℤ → Bool)
    (x_min x_max y_min y_max : ℤ) : ℕ × ℕ :=
  (int_grid x_min x_max y_min y_max).foldl
    (fun acc t => if outcome t.1 t.2 then (acc.1 + 1, acc.2) else (acc.1, acc.2 + 1))
    (0, 0)

/-- `DirectGIBSDownloader.download_global_coverage`, from
`direct-gibs-downloader.py`: region grid over
`[0, 2 ** zoom_level - 1]` in both axes. -/
def download_global_coverage (outcome : ℤ → ℤ → Bool) (zoom_level : ℕ) : ℕ × ℕ :=
  download_region_grid outcome 0 ((2 : ℤ) ^ zoom_level - 1) 0 ((2 : ℤ) ^ zoom_level - 1)

/-! ## Python string primitives

Python strings are modelled as `List Char` (Python compares strings
lexicographically by code point, which is exactly the `List Char`
linear order; Lean `String` functions do not reduce inside the
kernel, their `List Char` counterparts do). -/

/-- Python `s.endswith(suffix)`. -/
def pyEndsWith (s suffix : List Char) : Bool :=
  decide (s.drop (s.length - suffix.length) = suffix)

/-- Python `s.split(sep)` for a one-character separator: `""` splits
to `[""]`, and every occurrence of the separator starts a new token. -/
def pySplitOn (sep : Char) : List Char → List (List Char)
  | [] => [[]]
  | c :: cs =>
      let r := pySplitOn sep cs
      if c = sep then [] :: r
      else
        match r with
        | [] => [[c]]
        | t :: ts => (c :: t) :: ts

/-! ## Encoder adapter (`animation-video-generator.py`) -/

/-- Observable steps of the two encode functions, in program order. -/
inductive AnimEvent : Type
  /-- `os.path.exists(frames_dir)` -/
  | check_frames_dir
  /-- `subprocess.run(["ffmpeg", "-version"], ...)` availability probe -/
  | check_ffmpeg
  /-- `os.listdir(frames_dir)` (the first touch of the frame files) -/
  | list_frames
  /-- the single MP4 encoder invocation -/
  | run_ffmpeg_mp4
  /-- first GIF invocation: palette generation to `palette.png` -/
  | run_ffmpeg_palettegen
  /-- second GIF invocation: re-encode through `palette.png` -/
  | run_ffmpeg_paletteuse
  /-- `os.remove("palette.png")` -/
  | remove_palette
deriving DecidableEq, Repr

/-- How a Python call ended: an ordinary `return` or an uncaught
exception of the given name. -/
inductive PyOutcome : Type
  | ret (value : Bool)
  | raised (exn : String)
deriving DecidableEq, Repr

/-- `create_video_from_frames` (the MP4 path), from
`animation-video-generator.py`.  Parameters: does the frames directory
exist, is the `ffmpeg` binary invocable, the directory listing, and
does the encoder invocation exit with code 0.  When `ffmpeg` is absent
the availability probe raises `FileNotFoundError`, which the function
catches and turns into `return False` — before `os.listdir` ever
runs.  A failing encode (`CalledProcessError`) is caught and also
yields `False`. -/
def create_video_from_frames (dir_exists ffmpeg_present : Bool)
    (files : List (List Char)) (encode_ok : Bool) : List AnimEvent × PyOutcome :=
  if ¬ dir_exists then
    ([.check_frames_dir], .ret false)
  else if ¬ ffmpeg_present then
    ([.check_frames_dir, .check_ffmpeg], .ret false)
  else
    let frame_files := (files.filter (fun f => pyEndsWith f ".jpg".toList)).insertionSort (· ≤ ·)
    if frame_files.isEmpty then
      ([.check_frames_dir, .check_ffmpeg, .list_frames], .ret false)
    else
      ([.check_frames_dir, .check_ffmpeg, .list_frames, .run_ffmpeg_mp4], .ret encode_ok)

/-- `create_gif_from_frames` (the GIF path), from
`animation-video-generator.py`.  Unlike the MP4 path there is NO
`ffmpeg` availability probe: the function lists the frame files and
then invokes the encoder directly, so an absent `ffmpeg` surfaces as a
`FileNotFoundError` raised by `subprocess.run` — and the surrounding
`try` only catches `CalledProcessError`, so it propagates uncaught.
`palette.png` is removed only on the success path, inside the `try`;
the final component of the result is whether `palette.png` exists when
the call ends (its prior existence is `palette₀`; a failing palettegen
invocation is modelled as producing no palette file). -/
def create_gif_from_frames (dir_exists ffmpeg_present : Bool)
    (files : List (List Char)) (palettegen_ok paletteuse_ok palette₀ : Bool) :
    (List AnimEvent × PyOutcome) × Bool :=
  if ¬ dir_exists then
    (([.check_frames_dir], .ret false), palette₀)
  else
    let frame_files := (files.filter (fun f => pyEndsWith f ".jpg".toList)).insertionSort (· ≤ ·)
    if frame_files.isEmpty then
      (([.check_frames_dir, .list_frames], .ret false), palette₀)
    else if ¬ ffmpeg_present then
      (([.check_frames_dir, .list_frames, .run_ffmpeg_palettegen],
        .raised "FileNotFoundError"), palette₀)
    else if ¬ palettegen_ok then
      (([.check_frames_dir, .list_frames, .run_ffmpeg_palettegen], .ret false), palette₀)
    else if ¬ paletteuse_ok then
      (([.check_frames_dir, .list_frames, .run_ffmpeg_palettegen,
         .run_ffmpeg_paletteuse], .ret false), true)
    else
      (([.check_frames_dir, .list_frames, .run_ffmpeg_palettegen,
         .run_ffmpeg_paletteuse, .remove_palette], .ret true), false)

/-! ## Batch orchestrator (`batch-world-map-generator.py`) -/

/-- One character is an ASCII decimal digit. -/
def isAsciiDigit (c : Char) : Bool := ('0' ≤ c ∧ c ≤ '9' : Bool)

/-- Numeric value of an ASCII digit. -/
def digitVal (c : Char) : ℕ := c.toNat - 48

/-- Day count of a month in the proleptic Gregorian calendar, as
validated by `datetime.strptime(part, "%Y-%m-%d")`. -/
def days_in_month (year month : ℕ) : ℕ :=
  if month = 2 then
    if year % 4 = 0 ∧ (year % 100 ≠ 0 ∨ year % 400 = 0) then 29 else 28
  else if month = 4 ∨ month = 6 ∨ month = 9 ∨ month = 11 then 30
  else 31

/-- Acceptance of `datetime.strptime(part, "%Y-%m-%d")` on a token.
For a 10-character token containing exactly two hyphens (the only
tokens the script feeds to `strptime`), acceptance is equivalent to
the shape `DDDD-DD-DD` with ASCII digit groups of widths 4, 2, 2
forming a calendar-valid date with year ≥ 1 — the widths are forced
because `%Y` consumes at most 4 digits and `%m`, `%d` at most 2. -/
def strptime_Y_m_d_ok (s : List Char) : Bool :=
  match s with
  | [y₁, y₂, y₃, y₄, h₁, m₁, m₂, h₂, d₁, d₂] =>
      h₁ = '-' ∧ h₂ = '-' ∧
      isAsciiDigit y₁ ∧ isAsciiDigit y₂ ∧ isAsciiDigit y₃ ∧ isAsciiDigit y₄ ∧
      isAsciiDigit m₁ ∧ isAsciiDigit m₂ ∧ isAsciiDigit d₁ ∧ isAsciiDigit d₂ ∧
      (let year := 1000 * digitVal y₁ + 100 * digitVal y₂ + 10 * digitVal y₃ + digitVal y₄
       let month := 10 * digitVal m₁ + digitVal m₂
       let day := 10 * digitVal d₁ + digitVal d₂
       (1 ≤ year ∧ 1 ≤ month ∧ month ≤ 12 ∧ 1 ≤ day ∧ day ≤ days_in_month year month : Bool))
  | _ => false

/-- The per-token test applied inside `find_downloaded_dates`:
`len(part) == 10 and part.count("-") == 2` and then a successful
`strptime(part, "%Y-%m-%d")`. -/
def date_token_ok (part : List Char) : Bool :=
  part.length = 10 ∧ part.count '-' = 2 ∧ strptime_Y_m_d_ok part

/-- `find_downloaded_dates`, from `batch-world-map-generator.py`.
`dir_exists` models `os.path.exists(terra_downloads_dir)`; `files` is
the multiset of file names produced by `os.walk`.  For every `.jpg` or
`.jpeg` file the name is split on `_` and every token passing
`date_token_ok` is added to a set; the function returns
`sorted(list(dates))` — modelled as sorting the deduplicated
collection by the string order (Python compares strings
lexicographically by code point, which is exactly the `String` linear
order). -/
def find_downloaded_dates (dir_exists : Bool) (files : List (List Char)) :
    List (List Char) :=
  if ¬ dir_exists then []
  else
    let collected := files.flatMap fun file =>
      if pyEndsWith file ".jpg".toList ∨ pyEndsWith file ".jpeg".toList then
        (pySplitOn '_' file).filter date_token_ok
      else []
    collected.dedup.insertionSort (· ≤ ·)

/-- The date-selection steps of `main` in
`batch-world-map-generator.py`: filter by `--start-date` and
`--end-date` (string comparison, and only when the argument is a
non-empty string, mirroring Python truthiness) and truncate to
`--limit` (only when the limit is nonzero, again mirroring
truthiness). -/
def filter_dates (available : List (List Char))
    (start_date end_date : Option (List Char)) (limit : Option ℕ) :
    List (List Char) :=
  let d₁ := match start_date with
    | some sd => if sd = [] then available else available.filter (fun d => sd ≤ d)
    | none => available
  let d₂ := match end_date with
    | some ed => if ed = [] then d₁ else d₁.filter (fun d => d ≤ ed)
    | none => d₁
  match limit with
  | some l => if l = 0 then d₂ else d₂.take l
  | none => d₂

/-- Counters aggregated by the batch loop in `main`.  The loop keeps
exactly these two counters — there is no `skipped` counter in the
script. -/
structure BatchCounters : Type where
  successful : ℕ
  failed : ℕ
deriving DecidableEq, Repr

/-- One iteration of the batch loop in `main`
(`batch-world-map-generator.py`, lines 120–138) for a single date.
`artifact_exists` models `os.path.exists(expected_path)` for
`terra_complete_world_map_{date}_z{zoom}.jpg`; `generation_ok` is the
outcome of `generate_world_map_for_date` when it runs.  Returns the
updated counters together with whether fresh generation work (the
subprocess call) was performed.  When the artifact already exists the
script prints a skip message, increments `successful`, and moves on
without spawning the generator. -/
def process_date (artifact_exists generation_ok : Bool) (c : BatchCounters) :
    BatchCounters × Bool :=
  if artifact_exists then
    ({ c with successful := c.successful + 1 }, false)
  else if generation_ok then
    ({ c with successful := c.successful + 1 }, true)
  else
    ({ c with failed := c.failed + 1 }, true)

/-- The success-rate report at the end of `main`:
`(successful / len(dates_to_process) * 100)`.  A zero denominator
makes Python raise `ZeroDivisionError`, modelled as `none`; otherwise
the exact rational value is returned. -/
def success_rate (successful total : ℕ) : Option ℚ :=
  if total = 0 then none
  else some ((successful : ℚ) / (total : ℚ) * 100)

/-! ## Helper lemmas -/

/-- Pastes into distinct tile-aligned slots commute: the two regions
are disjoint, so the order of the two pastes does not matter. -/
theorem paste_comm (c t₁ t₂ : Img) (a₁ b₁ a₂ b₂ : ℕ)
    (hne : (a₁, b₁) ≠ (a₂, b₂)) :
    paste (paste c t₁ (a₁ * tile_size) (b₁ * tile_size)) t₂ (a₂ * tile_size) (b₂ * tile_size)
      = paste (paste c t₂ (a₂ * tile_size) (b₂ * tile_size)) t₁ (a₁ * tile_size) (b₁ * tile_size) := by
  funext u v
  simp only [paste, tile_size]
  by_cases h₁ : a₁ * 256 ≤ u ∧ u < a₁ * 256 + 256 ∧ b₁ * 256 ≤ v ∧ v < b₁ * 256 + 256 <;>
    by_cases h₂ : a₂ * 256 ≤ u ∧ u < a₂ * 256 + 256 ∧ b₂ * 256 ≤ v ∧ v < b₂ * 256 + 256 <;>
    simp [h₁, h₂]
  exact absurd (Prod.ext (by omega) (by omega)) hne

/-- Pasting a permutation of a tile list whose slots are pairwise
distinct produces the identical image. -/
theorem pasteAll_perm {α : Type} (img : α → Img) (pos : α → ℕ × ℕ)
    {l l' : List α} (hp : l.Perm l')
    (hd : l.Pairwise (fun a b => pos a ≠ pos b)) :
    ∀ init, pasteAll img pos init l = pasteAll img pos init l' := by
  induction hp with
  | nil => intro init; rfl
  | cons x h ih =>
      intro init
      simp only [pasteAll, List.foldl_cons] at *
      exact ih (List.Pairwise.of_cons hd) _
  | swap x y l =>
      intro init
      simp only [pasteAll, List.foldl_cons]
      have hxy : pos y ≠ pos x := (List.pairwise_cons.mp hd).1 x (by simp)
      rw [paste_comm _ _ _ _ _ _ _ hxy]
  | trans h₁ h₂ ih₁ ih₂ =>
      intro init
      have hd₂ := (h₁.pairwise_iff (fun hab => Ne.symm hab)).mp hd
      exact (ih₁ hd init).trans (ih₂ hd₂ init)

/-- Characterisation of `List.min?` on naturals. -/
theorem nat_min?_eq_some_iff {a : ℕ} {xs : List ℕ} :
    xs.min? = some a ↔ a ∈ xs ∧ ∀ b ∈ xs, a ≤ b :=
  List.min?_eq_some_iff (fun x => Nat.le_refl x) (fun x y => min_choice x y)
    (fun _ _ _ => le_min_iff)

/-- `List.min?` only depends on the multiset of elements. -/
theorem min?_perm {l l' : List ℕ} (h : l.Perm l') : l.min? = l'.min? := by
  cases hx : l.min? with
  | none =>
      rw [List.min?_eq_none_iff] at hx
      subst hx
      rw [(h.symm.eq_nil : l' = [])]
      rfl
  | some a =>
      obtain ⟨hmem, hle⟩ := nat_min?_eq_some_iff.mp hx
      exact (nat_min?_eq_some_iff.mpr
        ⟨h.mem_iff.mp hmem, fun b hb => hle b (h.mem_iff.mpr hb)⟩).symm

/-- The success/failure counting loop adds exactly one to one of the
two counters per element. -/
theorem foldl_count_add {α : Type} (p : α → Bool) (l : List α) :
    ∀ acc : ℕ × ℕ,
      (l.foldl (fun acc t => if p t then (acc.1 + 1, acc.2) else (acc.1, acc.2 + 1)) acc).1
        + (l.foldl (fun acc t => if p t then (acc.1 + 1, acc.2) else (acc.1, acc.2 + 1)) acc).2
        = acc.1 + acc.2 + l.length := by
  induction l with
  | nil => intro acc; simp
  | cons x xs ih =>
      intro acc
      simp only [List.foldl_cons, List.length_cons]
      by_cases hx : p x = true <;> simp only [hx, if_true, if_false, Bool.false_eq_true] <;>
        rw [ih] <;> simp <;> omega

/-- Length of the inclusive integer rectangle enumeration. -/
theorem int_grid_length (x_min x_max y_min y_max : ℤ) :
    (int_grid x_min x_max y_min y_max).length
      = (x_max + 1 - x_min).toNat * (y_max + 1 - y_min).toNat := by
  unfold int_grid
  rw [List.length_flatMap]
  generalize (x_max + 1 - x_min).toNat = n
  generalize (y_max + 1 - y_min).toNat = m
  induction n with
  | zero => simp
  | succ k ih =>
      rw [List.range_succ, List.map_append, List.sum_append, ih]
      simp [Function.comp, Nat.succ_mul]

/-! ## Claim theorems -/

/-- Claim C1, counterexample: running the batch loop body on a date
whose output artifact already exists increments `successful` — not a
`skipped` counter, which does not exist in the script
(`BatchCounters` has exactly the two fields the loop maintains). -/
theorem claim_C1_counterexample :
    process_date true true ⟨0, 0⟩ = (⟨1, 0⟩, false) := rfl

/-- Claim C1 (amended): for every run of the batch loop body over a
date whose output artifact already exists, the script increments the
`successful` counter (it counts the already-existing artifact as a
success; there is no `skipped` counter), leaves `failed` unchanged,
and performs no fresh generation work for that date. -/
theorem claim_C1_amended (generation_ok : Bool) (c : BatchCounters) :
    process_date true generation_ok c
      = ({ c with successful := c.successful + 1 }, false) := rfl

/-- Claim C2: on the code, the success-rate computation at the end of
`main` divides by `len(dates_to_process)` with no zero guard, and the
date filters can empty a non-empty candidate list.  Concretely: the
scan finds the single date `2023-01-01`, `--start-date 2024-01-01`
filters it away, and the final report divides by zero
(`success_rate _ 0 = none` models the `ZeroDivisionError`). -/
theorem claim_C2_zero_division :
    find_downloaded_dates true ["MODIS_Terra_2023-01-01_map.jpg".toList]
        = ["2023-01-01".toList]
    ∧ filter_dates ["2023-01-01".toList] (some "2024-01-01".toList) none none = []
    ∧ success_rate 0
        (filter_dates ["2023-01-01".toList] (some "2024-01-01".toList) none none).length
        = none := by
  refine ⟨by decide, by decide, ?_⟩
  rfl

/-- Claim C6, counterexample: `download_single_tile` in
`direct-gibs-downloader.py` issues the network request even when the
tile file already exists at the output path — the function never
checks the path before fetching. -/
theorem claim_C6_counterexample :
    download_single_tile true true = (true, true) := rfl

/-- Claim C6 (amended): `download_tile` in
`complete-world-map-generator.py` implements the skip rule — when the
tile file already exists it returns the path with success immediately
and performs no network call; `download_single_tile` in
`direct-gibs-downloader.py` has no such check and always performs the
network call. -/
theorem claim_C6_amended (z x y : ℕ) (s₁ e s₂ : Bool) :
    download_tile z x y true s₁ = ((some (tile_filename z x y), true), false)
    ∧ (download_single_tile e s₂).2 = true :=
  ⟨rfl, rfl⟩

/-- Claim C7, counterexample: `get_tiles_for_bbox` in
`earthdata-image-exporter.py` has no tile cap — for the whole-globe
bounding box at zoom 3 it returns 64 tile coordinates, more than 25. -/
theorem claim_C7_counterexample :
    (get_tiles_for_bbox (-180, -90, 180, 90) 3).length = 64
    ∧ ¬ (get_tiles_for_bbox (-180, -90, 180, 90) 3).length ≤ 25 := by
  have e1 : pyInt (((-180 : ℚ) + 180) / 360 * (((2 ^ 3 : ℤ) : ℚ))) = 0 := by
    norm_num [pyInt]
  have e2 : pyInt (((180 : ℚ) + 180) / 360 * (((2 ^ 3 : ℤ) : ℚ))) = 8 := by
    norm_num [pyInt]
  have e3 : pyInt (((90 : ℚ) - 90) / 180 * (((2 ^ 3 : ℤ) : ℚ))) = 0 := by
    norm_num [pyInt]
  have e4 : pyInt (((90 : ℚ) - -90) / 180 * (((2 ^ 3 : ℤ) : ℚ))) = 8 := by
    norm_num [pyInt]
  have hlen : (get_tiles_for_bbox (-180, -90, 180, 90) 3).length = 64 := by
    dsimp only [get_tiles_for_bbox]
    rw [e1, e2, e3, e4, int_grid_length]
    decide
  exact ⟨hlen, by omega⟩

/-- Claim C7 (amended): only the ingest-worker planner caps its
result: `_get_tile_coordinates` truncates the enumerated rectangle to
its first 25 coordinates, so it returns at most 25 tiles for every
bounding box; `get_tiles_for_bbox` in `earthdata-image-exporter.py`
enumerates the full clamped rectangle with no cap (64 tiles for the
whole-globe box at zoom 3). -/
theorem claim_C7_amended :
    (∀ min_x max_x min_y max_y : ℤ,
      (get_tile_coordinates min_x max_x min_y max_y).length ≤ 25)
    ∧ (get_tiles_for_bbox (-180, -90, 180, 90) 3).length = 64 := by
  constructor
  · intro a b c d
    simp only [get_tile_coordinates, List.length_take]
    omega
  · have e1 : pyInt (((-180 : ℚ) + 180) / 360 * (((2 ^ 3 : ℤ) : ℚ))) = 0 := by
      norm_num [pyInt]
    have e2 : pyInt (((180 : ℚ) + 180) / 360 * (((2 ^ 3 : ℤ) : ℚ))) = 8 := by
      norm_num [pyInt]
    have e3 : pyInt (((90 : ℚ) - 90) / 180 * (((2 ^ 3 : ℤ) : ℚ))) = 0 := by
      norm_num [pyInt]
    have e4 : pyInt (((90 : ℚ) - -90) / 180 * (((2 ^ 3 : ℤ) : ℚ))) = 8 := by
      norm_num [pyInt]
    dsimp only [get_tiles_for_bbox]
    rw [e1, e2, e3, e4, int_grid_length]
    decide

/-- Sum of the lengths of constant-length blocks. -/
theorem sum_map_length_const {β : Type} (g : ℕ → List β) (m : ℕ)
    (hg : ∀ i, (g i).length = m) (n : ℕ) :
    ((List.range n).map (List.length ∘ g)).sum = n * m := by
  induction n with
  | zero => simp
  | succ k ih =>
      rw [List.range_succ, List.map_append, List.sum_append, ih]
      simp [Function.comp, hg, Nat.succ_mul]

/-- Claim C8: for every zoom level `z`, the full-coverage planner
`calculate_world_tiles` returns exactly `(2 ^ z) ^ 2` tile
coordinates, pairwise distinct, and every returned `(zoom, x, y)` has
`zoom = z`, `x < 2 ^ z` and `y < 2 ^ z` (coordinates are naturals, so
`0 ≤ x, y` holds by construction); the global-coverage downloader
attempts the same number of tiles. -/
theorem claim_C8_world_tiles (z : ℕ) :
    (calculate_world_tiles z).length = (2 ^ z) ^ 2
    ∧ (calculate_world_tiles z).Nodup
    ∧ (∀ t ∈ calculate_world_tiles z, t.1 = z ∧ t.2.1 < 2 ^ z ∧ t.2.2 < 2 ^ z)
    ∧ (int_grid 0 ((2 : ℤ) ^ z - 1) 0 ((2 : ℤ) ^ z - 1)).length = (2 ^ z) ^ 2 := by
  refine ⟨?_, ?_, ?_, ?_⟩
  · unfold calculate_world_tiles
    rw [List.length_flatMap, pow_two]
    exact sum_map_length_const _ _ (fun i => by simp) _
  · rw [calculate_world_tiles, List.nodup_flatMap]
    constructor
    · intro x _
      exact (List.nodup_range _).map (fun a b hab => by simpa using hab)
    · refine (List.nodup_range _).imp ?_
      intro a b hab
      intro t hta htb
      simp only [List.mem_map, List.mem_range] at hta htb
      obtain ⟨ya, _, rfl⟩ := hta
      obtain ⟨yb, _, hb⟩ := htb
      simp only [Prod.ext_iff] at hb
      exact hab hb.2.1.symm
  · intro t ht
    simp only [calculate_world_tiles, List.mem_flatMap, List.mem_map,
      List.mem_range] at ht
    obtain ⟨x, hx, y, hy, rfl⟩ := ht
    exact ⟨rfl, hx, hy⟩
  · rw [int_grid_length]
    have h2 : ((2 : ℤ) ^ z - 1 + 1 - 0) = ((2 ^ z : ℕ) : ℤ) := by push_cast; ring
    rw [h2, Int.toNat_natCast]
    ring

/-- Claim C8, witness: the properties instantiated at zoom 1 and at
the member `(1, 0, 1)`. -/
theorem claim_C8_witness :
    (calculate_world_tiles 1).length = (2 ^ 1) ^ 2
    ∧ ((1 : ℕ), (0 : ℕ), (1 : ℕ)).1 = 1 ∧ ((1 : ℕ), (0 : ℕ), (1 : ℕ)).2.1 < 2 ^ 1
    ∧ ((1 : ℕ), (0 : ℕ), (1 : ℕ)).2.2 < 2 ^ 1 :=
  ⟨(claim_C8_world_tiles 1).1,
   (claim_C8_world_tiles 1).2.2.1 (1, 0, 1) (by decide)⟩

/-- Claim C9: for every outcome assignment and every non-empty index
rectangle, `download_region_grid` counts each requested tile exactly
once: `successful + failed = (x_max - x_min + 1) * (y_max - y_min + 1)`. -/
theorem claim_C9_region_grid_counts (outcome : ℤ → ℤ → Bool)
    (x_min x_max y_min y_max : ℤ) (hx : x_min ≤ x_max) (hy : y_min ≤ y_max) :
    ((download_region_grid outcome x_min x_max y_min y_max).1 : ℤ)
      + ((download_region_grid outcome x_min x_max y_min y_max).2 : ℤ)
      = (x_max - x_min + 1) * (y_max - y_min + 1) := by
  have hs : (download_region_grid outcome x_min x_max y_min y_max).1
      + (download_region_grid outcome x_min x_max y_min y_max).2
      = (x_max + 1 - x_min).toNat * (y_max + 1 - y_min).toNat := by
    have h := foldl_count_add (fun t : ℤ × ℤ => outcome t.1 t.2)
      (int_grid x_min x_max y_min y_max) (0, 0)
    rw [int_grid_length] at h
    simpa [download_region_grid] using h
  have hP : (((x_max + 1 - x_min).toNat : ℤ)) = x_max + 1 - x_min :=
    Int.toNat_of_nonneg (by omega)
  have hQ : (((y_max + 1 - y_min).toNat : ℤ)) = y_max + 1 - y_min :=
    Int.toNat_of_nonneg (by omega)
  have hcast : (((x_max + 1 - x_min).toNat * (y_max + 1 - y_min).toNat : ℕ) : ℤ)
      = (x_max - x_min + 1) * (y_max - y_min + 1) := by
    push_cast
    rw [hP, hQ]
    ring
  rw [← Nat.cast_add, hs, hcast]

/-- Claim C9, witness: a 3 × 2 rectangle with alternating outcomes. -/
theorem claim_C9_witness :
    ((download_region_grid (fun x _ => decide (x % 2 = 0)) 0 2 0 1).1 : ℤ)
      + ((download_region_grid (fun x _ => decide (x % 2 = 0)) 0 2 0 1).2 : ℤ)
      = (2 - 0 + 1) * (1 - 0 + 1) :=
  claim_C9_region_grid_counts (fun x _ => decide (x % 2 = 0)) 0 2 0 1
    (by decide) (by decide)

/-- Claim C4, counterexample: on the GIF path, when the second
(palette-use) encoder invocation fails, the function returns `False`
with `palette.png` still on disk — the cleanup sits inside the `try`
after the second invocation and is skipped on that exit path. -/
theorem claim_C4_counterexample :
    create_gif_from_frames true true ["frame_001_a.jpg".toList] true false false
      = (([.check_frames_dir, .list_frames, .run_ffmpeg_palettegen,
           .run_ffmpeg_paletteuse], .ret false), true) := by
  decide

/-- Claim C4 (amended): on the GIF path with the encoder present and a
non-empty frame list, the intermediate `palette.png` is deleted when
the palette-use invocation succeeds (the pipeline returns `True`); when
the palette-use invocation fails, the pipeline returns `False` and the
palette file is left on disk — the deletion is not performed on every
exit path. -/
theorem claim_C4_amended (files : List (List Char)) (p₀ : Bool)
    (h : ((files.filter (fun f => pyEndsWith f ".jpg".toList)).insertionSort
        (· ≤ ·)).isEmpty = false) :
    (create_gif_from_frames true true files true true p₀).1.2 = .ret true
    ∧ (create_gif_from_frames true true files true true p₀).2 = false
    ∧ (create_gif_from_frames true true files true false p₀).1.2 = .ret false
    ∧ (create_gif_from_frames true true files true false p₀).2 = true := by
  simp at h
  unfold create_gif_from_frames
  simp [h]

/-- Claim C4, witness: the amended claim at a one-frame directory. -/
theorem claim_C4_witness :
    (create_gif_from_frames true true ["frame_001_a.jpg".toList] true true false).1.2
        = .ret true
    ∧ (create_gif_from_frames true true ["frame_001_a.jpg".toList] true true false).2
        = false
    ∧ (create_gif_from_frames true true ["frame_001_a.jpg".toList] true false false).1.2
        = .ret false
    ∧ (create_gif_from_frames true true ["frame_001_a.jpg".toList] true false false).2
        = true :=
  claim_C4_amended ["frame_001_a.jpg".toList] false (by decide)

/-- Claim C5, counterexample: on the GIF path with `ffmpeg` absent,
the frame files are listed BEFORE the encoder is first invoked, and
the failure is an uncaught `FileNotFoundError` escaping from
`subprocess.run` (the `except` clause only catches
`CalledProcessError`), not a handled missing-tool failure. -/
theorem claim_C5_counterexample :
    create_gif_from_frames true false ["frame_001_a.jpg".toList] true true false
      = (([.check_frames_dir, .list_frames, .run_ffmpeg_palettegen],
          .raised "FileNotFoundError"), false) := by
  rfl

/-- Claim C5 (amended): only the MP4 path checks for the encoder
before any frame processing: with `ffmpeg` absent,
`create_video_from_frames` returns the missing-tool failure after the
directory check and the availability probe, without ever listing a
frame file; `create_gif_from_frames` has no availability probe — it
lists the frame files first and then fails with an uncaught
`FileNotFoundError` from the first encoder invocation. -/
theorem claim_C5_amended (files : List (List Char)) (encode_ok pg pu p₀ : Bool)
    (h : ((files.filter (fun f => pyEndsWith f ".jpg".toList)).insertionSort
        (· ≤ ·)).isEmpty = false) :
    create_video_from_frames true false files encode_ok
        = ([.check_frames_dir, .check_ffmpeg], .ret false)
    ∧ AnimEvent.list_frames ∉ (create_video_from_frames true false files encode_ok).1
    ∧ create_gif_from_frames true false files pg pu p₀
        = (([.check_frames_dir, .list_frames, .run_ffmpeg_palettegen],
            .raised "FileNotFoundError"), p₀) := by
  refine ⟨rfl, ?_, ?_⟩
  · show AnimEvent.list_frames ∉ [AnimEvent.check_frames_dir, AnimEvent.check_ffmpeg]
    decide
  · simp at h
    unfold create_gif_from_frames
    simp [h]

/-- Claim C5, witness: the amended claim at a one-frame directory. -/
theorem claim_C5_witness :
    create_video_from_frames true false ["frame_001_a.jpg".toList] true
        = ([.check_frames_dir, .check_ffmpeg], .ret false)
    ∧ AnimEvent.list_frames
        ∉ (create_video_from_frames true false ["frame_001_a.jpg".toList] true).1
    ∧ create_gif_from_frames true false ["frame_001_a.jpg".toList] true true false
        = (([.check_frames_dir, .list_frames, .run_ffmpeg_palettegen],
            .raised "FileNotFoundError"), false) :=
  claim_C5_amended ["frame_001_a.jpg".toList] true true true false (by decide)

/-- Claim C10: the date-discovery scan returns a sorted (ascending,
in the Python string order) duplicate-free list whose every element is
a 10-character token accepted by `strptime("%Y-%m-%d")` (a valid
calendar date), and it returns the empty list when the downloads
directory does not exist. -/
theorem claim_C10_find_dates (dir_exists : Bool) (files : List (List Char)) :
    find_downloaded_dates false files = []
    ∧ (find_downloaded_dates dir_exists files).Sorted (· ≤ ·)
    ∧ (find_downloaded_dates dir_exists files).Nodup
    ∧ ∀ s ∈ find_downloaded_dates dir_exists files,
        s.length = 10 ∧ strptime_Y_m_d_ok s = true := by
  refine ⟨rfl, ?_, ?_, ?_⟩
  · cases dir_exists with
    | false => simp [find_downloaded_dates]
    | true =>
        show ((_ : List (List Char)).insertionSort (· ≤ ·)).Sorted (· ≤ ·)
        exact List.sorted_insertionSort _ _
  · cases dir_exists with
    | false => simp [find_downloaded_dates]
    | true =>
        show ((_ : List (List Char)).dedup.insertionSort (· ≤ ·)).Nodup
        exact (List.nodup_dedup _).perm (List.perm_insertionSort _ _).symm
  · intro s hs
    cases dir_exists with
    | false => simp [find_downloaded_dates] at hs
    | true =>
        have hs₂ : s ∈ (files.flatMap fun file =>
            if pyEndsWith file ".jpg".toList ∨ pyEndsWith file ".jpeg".toList then
              (pySplitOn '_' file).filter date_token_ok
            else []) := by
          rw [← List.mem_dedup]
          exact (List.perm_insertionSort _ _).mem_iff.mp hs
        simp only [List.mem_flatMap] at hs₂
        obtain ⟨file, _, hsf⟩ := hs₂
        by_cases hj : pyEndsWith file ".jpg".toList ∨ pyEndsWith file ".jpeg".toList
        · rw [if_pos hj] at hsf
          have hd := (List.mem_filter.mp hsf).2
          simp only [date_token_ok, decide_eq_true_eq] at hd
          exact ⟨hd.1, hd.2.2⟩
        · rw [if_neg hj] at hsf
          exact absurd hsf (List.not_mem_nil s)

/-- Claim C10, witness: the empty-directory case, and the scan of a
directory holding `MODIS_Terra_2023-01-01_map.jpg`, instantiated at
the member `2023-01-01`. -/
theorem claim_C10_witness :
    find_downloaded_dates false ["x".toList] = []
    ∧ "2023-01-01".toList.length = 10
    ∧ strptime_Y_m_d_ok "2023-01-01".toList = true :=
  ⟨(claim_C10_find_dates false ["x".toList]).1,
   (claim_C10_find_dates true ["MODIS_Terra_2023-01-01_map.jpg".toList]).2.2.2
     "2023-01-01".toList (by decide)⟩

/-- `compose_frame` on a non-empty tile list is the generic paste
loop at offsets relative to the coordinate minima. -/
theorem compose_frame_eq_pasteAll (tiles : List (ℕ × ℕ × Img))
    (h : tiles.isEmpty = false) :
    compose_frame tiles = some (pasteAll (fun a => a.2.2)
      (fun a => (a.1 - ((tiles.map fun b => b.1).min?).getD 0,
                 a.2.1 - ((tiles.map fun b => b.2.1).min?).getD 0))
      (fun _ _ => (0, 0, 0)) tiles) := by
  unfold compose_frame
  rw [h]
  rfl

/-- `stitch_world_map` (placement part) is the generic paste loop at
the slot given by the own `(x, y)` coordinate of each tile. -/
theorem stitch_world_map_canvas_eq_pasteAll (l : List (ℕ × ℕ × ℕ × Img)) :
    stitch_world_map_canvas l
      = pasteAll (fun a => a.2.2.2) (fun a => (a.2.1, a.2.2.1))
          (fun _ _ => (0, 0, 50)) l := rfl

/-- Claim C3, counterexample: `stitch_tiles` places tiles by their
position in the input list, so swapping two fetched tiles moves their
pixels: with an all-ones tile and an all-twos tile, the two canvases
differ at pixel `(0, 0)` even though the inputs are permutations of
one another. -/
theorem claim_C3_counterexample :
    ([(5, 7, tileA), (9, 3, tileB)] : List (ℕ × ℕ × Img)).Perm
        [(9, 3, tileB), (5, 7, tileA)]
    ∧ stitch_tiles_canvas [(5, 7, tileA), (9, 3, tileB)] 512 512 0 0 = (1, 1, 1)
    ∧ stitch_tiles_canvas [(9, 3, tileB), (5, 7, tileA)] 512 512 0 0 = (2, 2, 2)
    ∧ stitch_tiles_canvas [(5, 7, tileA), (9, 3, tileB)] 512 512
        ≠ stitch_tiles_canvas [(9, 3, tileB), (5, 7, tileA)] 512 512 := by
  have h₁ : stitch_tiles_canvas [(5, 7, tileA), (9, 3, tileB)] 512 512 0 0
      = (1, 1, 1) := by decide
  have h₂ : stitch_tiles_canvas [(9, 3, tileB), (5, 7, tileA)] 512 512 0 0
      = (2, 2, 2) := by decide
  refine ⟨List.Perm.swap (9, 3, tileB) (5, 7, tileA) [], h₁, h₂, fun h => ?_⟩
  rw [h, h₂] at h₁
  exact absurd h₁ (by decide)

/-- Claim C3 (amended): the coordinate-keyed compositors are
order-independent — for `stitch_world_map` and `_compose_frame`,
composing any permutation of a result list whose `(x, y)` coordinates
are pairwise distinct yields a bit-identical canvas, because the
placement of each tile depends only on its coordinate; `stitch_tiles` in
`earthdata-image-exporter.py`, however, places tiles by their position
in the input list, so permuting its input can change the canvas. -/
theorem claim_C3_amended :
    (∀ (l l' : List (ℕ × ℕ × ℕ × Img)), l.Perm l' →
        l.Pairwise (fun a b => (a.2.1, a.2.2.1) ≠ (b.2.1, b.2.2.1)) →
        stitch_world_map_canvas l = stitch_world_map_canvas l')
    ∧ (∀ (t t' : List (ℕ × ℕ × Img)), t.Perm t' →
        t.Pairwise (fun a b => (a.1, a.2.1) ≠ (b.1, b.2.1)) →
        compose_frame t = compose_frame t') := by
  constructor
  · intro l l' hp hd
    rw [stitch_world_map_canvas_eq_pasteAll l, stitch_world_map_canvas_eq_pasteAll l']
    exact pasteAll_perm _ _ hp hd _
  · intro t t' hp hd
    by_cases ht : t = []
    · subst ht
      rw [hp.symm.eq_nil]
    · have ht' : t' ≠ [] := by
        intro h0
        subst h0
        exact ht hp.eq_nil
      have hte : t.isEmpty = false := by simpa [List.isEmpty_iff] using ht
      have hte' : t'.isEmpty = false := by simpa [List.isEmpty_iff] using ht'
      rw [compose_frame_eq_pasteAll t hte, compose_frame_eq_pasteAll t' hte']
      have hmx : (t'.map fun b => b.1).min? = (t.map fun b => b.1).min? :=
        min?_perm (hp.map _).symm
      have hmy : (t'.map fun b => b.2.1).min? = (t.map fun b => b.2.1).min? :=
        min?_perm (hp.map _).symm
      rw [hmx, hmy]
      cases hx : (t.map fun b => b.1).min? with
      | none =>
          rw [List.min?_eq_none_iff, List.map_eq_nil_iff] at hx
          exact absurd hx ht
      | some mx =>
      cases hy : (t.map fun b => b.2.1).min? with
      | none =>
          rw [List.min?_eq_none_iff, List.map_eq_nil_iff] at hy
          exact absurd hy ht
      | some my =>
      have hxle : ∀ a ∈ t, mx ≤ a.1 := fun a ha =>
        (nat_min?_eq_some_iff.mp hx).2 a.1 (List.mem_map_of_mem _ ha)
      have hyle : ∀ a ∈ t, my ≤ a.2.1 := fun a ha =>
        (nat_min?_eq_some_iff.mp hy).2 a.2.1 (List.mem_map_of_mem _ ha)
      simp only [Option.getD_some]
      refine congrArg some ?_
      refine pasteAll_perm _ _ hp (hd.imp_of_mem ?_) _
      intro a b ha hb hne heq
      apply hne
      have h1 := congrArg Prod.fst heq
      have h2 := congrArg Prod.snd heq
      simp only at h1 h2
      have hax := hxle a ha
      have hbx := hxle b hb
      have hay := hyle a ha
      have hby := hyle b hb
      exact Prod.ext (by omega) (by omega)

/-- Claim C3, witness: the amended invariance instantiated on
two-element lists with distinct coordinates and their swaps. -/
theorem claim_C3_witness :
    stitch_world_map_canvas [(2, 0, 1, tileA), (2, 1, 0, tileB)]
        = stitch_world_map_canvas [(2, 1, 0, tileB), (2, 0, 1, tileA)]
    ∧ compose_frame [(4, 5, tileA), (6, 2, tileB)]
        = compose_frame [(6, 2, tileB), (4, 5, tileA)] :=
  ⟨claim_C3_amended.1 _ _ (List.Perm.swap (2, 1, 0, tileB) (2, 0, 1, tileA) [])
      (by simp),
   claim_C3_amended.2 _ _ (List.Perm.swap (6, 2, tileB) (4, 5, tileA) [])
      (by simp)⟩

end TerraData
